import Mathlib

/-!
Verification of the ACE framework's artifact-routing-and-aggregation pipeline.

The Python sources are shallowly embedded: floats become `ℚ`, `None`-able
values become `Option`, Python dicts become association lists, and in-place
mutation is made explicit by returning the updated value.  Wall-clock fields
(`processing_time_ms` inputs, `processed_at`) are modelled as parameters or
omitted, as noted at each definition.
-/

namespace AceFw

/-- Embedding of config.models.core_models.ArtifactType (str enum). -/
inductive ArtifactType where
  | mcq
  | text
  | audio
  deriving DecidableEq, Repr

/-- The str value of the ArtifactType enum member. -/
def ArtifactType.value : ArtifactType → String
  | .mcq => "mcq"
  | .text => "text"
  | .audio => "audio"

/-- Embedding of config.models.core_models.ACEDimension (str enum). -/
inductive ACEDimension where
  | analysis
  | communication
  | evaluation
  deriving DecidableEq, Repr

/-- The str value of the ACEDimension enum member. -/
def ACEDimension.value : ACEDimension → String
  | .analysis => "analysis"
  | .communication => "communication"
  | .evaluation => "evaluation"

/-- JSON-like Python values (dict entries, payload fields, metadata values). -/
inductive PVal where
  | s (v : String)
  | q (v : ℚ)
  | b (v : Bool)
  | null
  | arr (vs : List PVal)
  | obj (fields : List (String × PVal))
  | bytes (bs : List Nat)

/-- Python truthiness of a PVal (used by `or` chains and `if not x` tests). -/
def pyTruthy : PVal → Bool
  | .s v => v ≠ ""
  | .q v => v ≠ 0
  | .b v => v
  | .null => false
  | .arr vs => !vs.isEmpty
  | .obj fields => !fields.isEmpty
  | .bytes bs => !bs.isEmpty

/-- Embedding of config.models.core_models.ACEScore.
`details : Dict[str, Any]` is an association list of PVal. -/
structure ACEScore where
  dimension : ACEDimension
  score : ℚ
  weight : ℚ
  feedback : String
  details : List (String × PVal)

/-- Embedding of config.models.core_models.ArtifactResult.
`processed_at` (a wall-clock datetime) is omitted from the embedding. -/
structure ArtifactResult where
  artifact_id : String
  artifact_type : ArtifactType
  processing_time_ms : Nat
  ace_scores : List ACEScore
  overall_score : ℚ
  feedback : String
  metadata : List (String × PVal)
  errors : List String

/-- The slice of the routing-config dict that processors read
(BaseProcessor._extract_routing_config / _get_processor_config /
_get_ace_weights): `ace_weight_mapping` maps dimension value strings to
floats and `processor_config` holds the string-valued keys the MCQ
processor consults. -/
structure RoutingDict where
  ace_weight_mapping : List (String × ℚ)
  processor_config : List (String × String)
  deriving DecidableEq, Repr

/-- Embedding of config.models.core_models.ProcessingTask.
`artifact_payload : Any` becomes a type parameter; `created_at` is omitted
(wall clock). -/
structure ProcessingTask (π : Type) where
  task_id : String
  submission_id : String
  artifact_id : String
  artifact_type : ArtifactType
  artifact_payload : π
  student_id : Option String
  batch_id : Option String
  routing_config : RoutingDict
  retry_count : Nat
  max_retries : Nat

/-- Embedding of config.models.core_models.CompletedArtifact. -/
structure CompletedArtifact where
  submission_id : String
  student_id : Option String
  batch_id : Option String
  artifact_result : ArtifactResult

/-- Embedding of BaseProcessor._get_ace_weights: reads `ace_weight_mapping`
from the routing dict, defaults each dimension to 0.0, and divides by the
total (`sum(weights.values()) or 1.0`: a zero total is replaced by 1.0). -/
def get_ace_weights (routing : RoutingDict) : ACEDimension → ℚ :=
  fun dim =>
    let w : ACEDimension → ℚ := fun d =>
      ((routing.ace_weight_mapping).lookup d.value).getD 0
    let total0 := w .analysis + w .communication + w .evaluation
    let total := if total0 = 0 then 1 else total0
    w dim / total

/-- Embedding of BaseProcessor._calculate_overall_score: safe weighted
average of ACE scores, falling back to the unweighted mean when the weight
total is not positive, and to 0.0 on an empty list. -/
def calculate_overall_score (ace_scores : List ACEScore) : ℚ :=
  if ace_scores.isEmpty then 0
  else
    let total_weight := (ace_scores.map (fun s => s.weight)).sum
    if total_weight ≤ 0 then
      (ace_scores.map (fun s => s.score)).sum / (ace_scores.length : ℚ)
    else
      (ace_scores.map (fun s => s.score * s.weight)).sum / total_weight

/-- Embedding of BaseProcessor._create_ace_score: the score is clamped by
max(0.0, min(100.0, score)).  This helper is the only place in the
repository that constructs an ACEScore. -/
def create_ace_score (dimension : ACEDimension) (score : ℚ) (weight : ℚ)
    (feedback : String) (details : List (String × PVal)) : ACEScore :=
  { dimension := dimension
    score := max 0 (min 100 score)
    weight := weight
    feedback := feedback
    details := details }

/-- The synthetic ArtifactResult that BaseProcessor.execute builds in its
except-branch.  `elapsed_ms` stands for int((time.time() - start) * 1000). -/
def failure_result {π : Type} (task : ProcessingTask π) (elapsed_ms : Nat)
    (e : String) : ArtifactResult :=
  { artifact_id := task.artifact_id
    artifact_type := task.artifact_type
    processing_time_ms := elapsed_ms
    ace_scores := []
    overall_score := 0
    feedback := "Processor error: " ++ e
    metadata := [("error", PVal.s e)]
    errors := [e] }

/-- Embedding of BaseProcessor.execute.  The strategy (`process_task`) is
passed explicitly; a raised exception becomes `Except.error` with the
exception text, and in-place mutation of the task's payload by a strategy is
made explicit in the second component of the strategy's (and execute's)
result.  On error the task is returned unchanged. -/
def execute {π : Type}
    (process_task : ProcessingTask π → Except String (ArtifactResult × ProcessingTask π))
    (elapsed_ms : Nat) (task : ProcessingTask π) :
    CompletedArtifact × ProcessingTask π :=
  match process_task task with
  | .ok (result, task2) =>
      ({ submission_id := task.submission_id
         student_id := task.student_id
         batch_id := task.batch_id
         artifact_result := { result with processing_time_ms := elapsed_ms } },
       task2)
  | .error e =>
      ({ submission_id := task.submission_id
         student_id := task.student_id
         batch_id := task.batch_id
         artifact_result := failure_result task elapsed_ms e },
       task)

/-- Embedding of config.models.artifact_models.MCQAnswer. -/
structure MCQAnswer where
  question_id : String
  selected_option : String
  correct_option : Option String
  is_correct : Option Bool
  deriving DecidableEq, Repr

/-- Embedding of config.models.artifact_models.MCQArtifact. -/
structure MCQArtifact where
  answers : List MCQAnswer
  total_questions : Nat
  correct_answers : Nat
  score_percentage : ℚ
  deriving DecidableEq, Repr

/-- Embedding of str.strip(): drop leading and trailing whitespace.  Written
over the character list so that it reduces definitionally. -/
def pyStrip (s : String) : String :=
  String.mk (((s.toList.dropWhile Char.isWhitespace).reverse.dropWhile
    Char.isWhitespace).reverse)

/-- Embedding of str.lower(). -/
def pyLower (s : String) : String :=
  String.mk (s.toList.map Char.toLower)

/-- Embedding of the local helper in MCQProcessor._evaluate_exact_match:
str(v).strip().lower() if v is not None else "". -/
def pyNorm : Option String → String
  | none => ""
  | some s => pyLower (pyStrip s)

/-- One loop step of MCQProcessor._evaluate_exact_match: when is_correct is
None it is assigned, in place, the normalized string equality of
selected_option and correct_option. -/
def updateAnswer (a : MCQAnswer) : MCQAnswer :=
  match a.is_correct with
  | none =>
      let computed := pyNorm (some a.selected_option) == pyNorm a.correct_option
      { a with is_correct := some computed }
  | some _ => a

/-- The evaluation dict returned by MCQProcessor._evaluate_exact_match
(the nested `details` entry repeats correct/incorrect counts and is
recoverable from these fields). -/
structure EvalResult where
  total_questions : Nat
  correct_answers : Nat
  accuracy_percentage : ℚ
  evaluation_method : String
  deriving DecidableEq, Repr

/-- Embedding of MCQProcessor._evaluate_exact_match.  The in-place
assignment to each answer's is_correct is made explicit: the second
component is the artifact after the loop ran (same object in Python). -/
def evaluate_exact_match (art : MCQArtifact) : EvalResult × MCQArtifact :=
  let answers := art.answers.map updateAnswer
  let total_questions := answers.length
  let correct := (answers.filter (fun a => a.is_correct == some true)).length
  let accuracy : ℚ :=
    if total_questions > 0 then (correct : ℚ) / (total_questions : ℚ) * 100 else 0
  ({ total_questions := total_questions
     correct_answers := correct
     accuracy_percentage := accuracy
     evaluation_method := "exact_match" },
   { art with answers := answers })

/-- Embedding of MCQProcessor._evaluate_answers: "partial_credit" and
"ai_scoring" are logged as not implemented and fall back to exact match, so
every branch runs the exact-match evaluation. -/
def evaluate_answers (art : MCQArtifact)
    (processor_config : List (String × String)) : EvalResult × MCQArtifact :=
  let method := pyLower ((processor_config.lookup "evaluation_method").getD "exact_match")
  if method = "partial_credit" then evaluate_exact_match art
  else if method = "ai_scoring" then evaluate_exact_match art
  else evaluate_exact_match art

/-- Embedding of MCQProcessor._calculate_ace_scores: Analysis gets
accuracy*0.9, Communication min(accuracy, 80.0), Evaluation the raw
accuracy, all through the clamping _create_ace_score helper. -/
def calculate_ace_scores (er : EvalResult)
    (ace_weights : ACEDimension → ℚ) : List ACEScore :=
  let accuracy := er.accuracy_percentage
  [ create_ace_score .analysis (accuracy * 0.9) (ace_weights .analysis)
      ("Analysis: " ++ toString er.correct_answers ++ "/" ++
        toString er.total_questions ++ " correct")
      [("correct_answers", PVal.q er.correct_answers)],
    create_ace_score .communication (min accuracy 80) (ace_weights .communication)
      "Communication: MCQ format limits expressive skills" [],
    create_ace_score .evaluation accuracy (ace_weights .evaluation)
      "Evaluation accuracy" [("accuracy_percentage", PVal.q accuracy)] ]

/-- Embedding of MCQProcessor._generate_feedback (the numeric formatting of
accuracy is rendered with toString). -/
def generate_feedback (er : EvalResult) : String :=
  let level :=
    if er.accuracy_percentage ≥ 90 then "Excellent"
    else if er.accuracy_percentage ≥ 80 then "Good"
    else if er.accuracy_percentage ≥ 70 then "Satisfactory"
    else "Needs improvement"
  level ++ " performance. You answered " ++ toString er.correct_answers ++
    "/" ++ toString er.total_questions ++ " correctly (" ++
    toString er.accuracy_percentage ++ "%)."

/-- One answer dict as consumed by build_from_list inside
MCQProcessor._extract_mcq_artifact: each field is the dict entry when
present.  Values are modelled as strings (resp. bool for is_correct), the
only shapes the surrounding code produces. -/
structure AnswerDict where
  question_id : Option String
  question : Option String
  selected_option : Option String
  answer : Option String
  correct_option : Option String
  is_correct : Option Bool
  deriving DecidableEq, Repr

/-- One answer built by build_from_list: get("question_id",
get("question", "")), get("selected_option", get("answer", "")),
str(get("correct_option", "")) — so the built correct_option is always a
string — and get("is_correct", None) kept as-is. -/
def buildAnswer (d : AnswerDict) : MCQAnswer :=
  { question_id := d.question_id.getD (d.question.getD "")
    selected_option := d.selected_option.getD (d.answer.getD "")
    correct_option := some (d.correct_option.getD "")
    is_correct := d.is_correct }

/-- Embedding of build_from_list in MCQProcessor._extract_mcq_artifact:
fresh MCQAnswer objects are constructed from the dicts, and the derived
counters are filled in. -/
def build_from_list (answers_list : List AnswerDict) : MCQArtifact :=
  let answers := answers_list.map buildAnswer
  let total := answers.length
  let correct := (answers.filter (fun a => a.is_correct == some true)).length
  { answers := answers
    total_questions := total
    correct_answers := correct
    score_percentage := if total ≠ 0 then (correct : ℚ) / (total : ℚ) * 100 else 0 }

/-- Payload shapes accepted by MCQProcessor._extract_mcq_artifact.  The
recognized dict and JSON-string branches (mcq_data, answers,
artifact_content, bare JSON string) all funnel the parsed answer-dict list
into build_from_list and are collapsed into one constructor; every other
value falls through to the single-answer wrap and is carried as its str()
rendering. -/
inductive MCQPayload where
  | modelArt (art : MCQArtifact)
  | dictWithAnswers (answers : List AnswerDict)
  | unrecognized (rawRepr : String)
  deriving DecidableEq, Repr

/-- Embedding of MCQProcessor._extract_mcq_artifact.  Only the
already-typed MCQArtifact payload is returned as the same object; all other
shapes build a fresh artifact. -/
def extract_mcq_artifact (task : ProcessingTask MCQPayload) : MCQArtifact :=
  match task.artifact_payload with
  | .modelArt art => art
  | .dictWithAnswers answers => build_from_list answers
  | .unrecognized rawRepr =>
      build_from_list
        [ { question_id := some task.artifact_id
            question := none
            selected_option := some rawRepr
            answer := none
            correct_option := some ""
            is_correct := some false } ]

/-- Embedding of MCQProcessor._process_core.  Mutation of the payload's
answer objects is explicit: when the payload is the typed MCQArtifact the
evaluation loop's assignments land on the task's own payload, so the task
returned alongside the result carries the updated artifact; otherwise the
answers were freshly built and the task is unchanged. -/
def mcq_process_core (task : ProcessingTask MCQPayload) :
    ArtifactResult × ProcessingTask MCQPayload :=
  let processor_config := task.routing_config.processor_config
  let ace_weights := get_ace_weights task.routing_config
  let mcq_artifact := extract_mcq_artifact task
  let er := evaluate_answers mcq_artifact processor_config
  let ace_scores := calculate_ace_scores er.1 ace_weights
  let overall_score := calculate_overall_score ace_scores
  let result : ArtifactResult :=
    { artifact_id := task.artifact_id
      artifact_type := task.artifact_type
      processing_time_ms := 0
      ace_scores := ace_scores
      overall_score := overall_score
      feedback := generate_feedback er.1
      metadata :=
        [ ("total_questions", PVal.q er.1.total_questions)
        , ("correct_answers", PVal.q er.1.correct_answers)
        , ("accuracy_percentage", PVal.q er.1.accuracy_percentage)
        , ("evaluation_method", PVal.s er.1.evaluation_method) ]
      errors := [] }
  let task2 :=
    match task.artifact_payload with
    | .modelArt _ => { task with artifact_payload := MCQPayload.modelArt er.2 }
    | _ => task
  (result, task2)

/-- Embedding of config.settings.ACEConfig (aggregation weights and
thresholds; environment overrides are out of scope, defaults below). -/
structure ACEConfig where
  analysis_weight : ℚ
  communication_weight : ℚ
  evaluation_weight : ℚ
  passing_score : ℚ
  excellence_threshold : ℚ
  deriving DecidableEq, Repr

/-- The ACEConfig field defaults from config.settings. -/
def default_ace_config : ACEConfig :=
  { analysis_weight := 0.4
    communication_weight := 0.3
    evaluation_weight := 0.3
    passing_score := 70
    excellence_threshold := 90 }

/-- ScoreAggregator.artifact_weights: mcq 0.4, text 0.35, audio 0.25.  The
dict lookup `self.artifact_weights.get(artifact_type, 0.0)` always hits one
of the three keys since artifact_type ranges over the enum values. -/
def artifact_weights : ArtifactType → ℚ
  | .mcq => 0.4
  | .text => 0.35
  | .audio => 0.25

/-- The same weight dict as stored in StudentReport.weights_applied. -/
def artifact_weights_dict : List (String × ℚ) :=
  [("mcq", 0.4), ("text", 0.35), ("audio", 0.25)]

/-- Embedding of config.models.core_models.SubmissionResult, restricted to
the fields the aggregator reads (the remaining fields — scores, feedback,
timestamps, status — are never consulted by ScoreAggregator). -/
structure SubmissionResult where
  submission_id : String
  student_id : String
  batch_id : String
  artifact_results : List ArtifactResult

/-- Embedding of config.models.core_models.StudentReport (generated_at, a
wall-clock default, is omitted). -/
structure StudentReport where
  student_id : String
  submission_id : String
  batch_id : Option String
  artifact_types : List String
  analysis_score : ℚ
  communication_score : ℚ
  evaluation_score : ℚ
  overall_score : ℚ
  passed : Bool
  excellence_achieved : Bool
  weights_applied : List (String × ℚ)
  deriving DecidableEq, Repr

/-- Embedding of Python round(x, 2).  Exactly representable rationals make
the float-tie behaviour (banker's rounding) unobservable for the claims at
hand; ties round via Lean's round. -/
def round2 (x : ℚ) : ℚ :=
  ((round (x * 100) : ℤ) : ℚ) / 100

/-- The per-dimension accumulation loop of
ScoreAggregator._aggregate_single_submission: for each artifact result,
each of its ace_scores adds score * artifact-type-weight into the bucket of
its dimension. -/
def dimension_weighted_sum (results : List ArtifactResult)
    (d : ACEDimension) : ℚ :=
  (results.map (fun ar =>
    (((ar.ace_scores.filter (fun sc => sc.dimension == d)).map
      (fun sc => sc.score * artifact_weights ar.artifact_type)).sum))).sum

/-- The total_weight accumulator of
ScoreAggregator._aggregate_single_submission. -/
def total_artifact_weight (results : List ArtifactResult) : ℚ :=
  (results.map (fun ar => artifact_weights ar.artifact_type)).sum

/-- Embedding of ScoreAggregator._empty_report. -/
def empty_report (submission : SubmissionResult) : StudentReport :=
  { student_id := submission.student_id
    submission_id := submission.submission_id
    batch_id := some submission.batch_id
    artifact_types := []
    analysis_score := 0
    communication_score := 0
    evaluation_score := 0
    overall_score := 0
    passed := false
    excellence_achieved := false
    weights_applied := artifact_weights_dict }

/-- Embedding of ScoreAggregator._aggregate_single_submission.
`list(set(artifact_types))` deduplicates with unspecified ordering in
Python; the embedding keeps first occurrences. -/
def aggregate_single_submission (cfg : ACEConfig)
    (submission : SubmissionResult) : StudentReport :=
  if submission.artifact_results.isEmpty then empty_report submission
  else
    let results := submission.artifact_results
    let tw0 := total_artifact_weight results
    let tw := if tw0 = 0 then 1 else tw0
    let analysis_score := round2 (dimension_weighted_sum results .analysis / tw)
    let communication_score := round2 (dimension_weighted_sum results .communication / tw)
    let evaluation_score := round2 (dimension_weighted_sum results .evaluation / tw)
    let overall_score :=
      analysis_score * cfg.analysis_weight +
      communication_score * cfg.communication_weight +
      evaluation_score * cfg.evaluation_weight
    { student_id := submission.student_id
      submission_id := submission.submission_id
      batch_id := some submission.batch_id
      artifact_types := (results.map (fun ar => ar.artifact_type.value)).dedup
      analysis_score := analysis_score
      communication_score := communication_score
      evaluation_score := evaluation_score
      overall_score := round2 overall_score
      passed := decide (cfg.passing_score ≤ overall_score)
      excellence_achieved := decide (cfg.excellence_threshold ≤ overall_score)
      weights_applied := artifact_weights_dict }

/-- Embedding of config.models.core_models.RoutingConfig, restricted to the
fields validate_routing_config consults (evaluation_criteria and
custom_rules are never read there).  processor_config values are the
string-valued keys the validators compare against string literals. -/
structure RoutingConfig where
  artifact_type : ArtifactType
  processor_config : List (String × String)
  ace_weight_mapping : List (ACEDimension × ℚ)
  deriving DecidableEq, Repr

/-- Rendering of an optional string inside an f-string: None prints as
"None". -/
def pyShowOpt : Option String → String
  | none => "None"
  | some s => s

/-- Embedding of ArtifactRouter._validate_mcq_processor_config. -/
def validate_mcq_processor_config (config : List (String × String)) : List String :=
  let processor_type := config.lookup "processor_type"
  let i1 :=
    if processor_type = some "deterministic" ∨ processor_type = some "ai" then []
    else ["Invalid MCQ processor_type: " ++ pyShowOpt processor_type]
  let evaluation_method := config.lookup "evaluation_method"
  let i2 :=
    if evaluation_method = some "exact_match" ∨
        evaluation_method = some "partial_credit" ∨
        evaluation_method = some "ai_scoring" then []
    else ["Invalid MCQ evaluation_method: " ++ pyShowOpt evaluation_method]
  i1 ++ i2

/-- Embedding of ArtifactRouter._validate_text_processor_config. -/
def validate_text_processor_config (config : List (String × String)) : List String :=
  let processor_type := config.lookup "processor_type"
  let i1 :=
    if processor_type = some "ai" ∨ processor_type = some "rule_based" then []
    else ["Invalid text processor_type: " ++ pyShowOpt processor_type]
  let i2 :=
    if processor_type = some "ai" then
      match config.lookup "model" with
      | some m => if m = "" then ["AI text processor requires model specification"] else []
      | none => ["AI text processor requires model specification"]
    else []
  i1 ++ i2

/-- Embedding of ArtifactRouter._validate_audio_processor_config. -/
def validate_audio_processor_config (config : List (String × String)) : List String :=
  let processor_type := config.lookup "processor_type"
  let i1 :=
    if processor_type = some "ai" then []
    else ["Invalid audio processor_type: " ++ pyShowOpt processor_type]
  let speech_to_text := config.lookup "speech_to_text"
  let i2 :=
    if speech_to_text = some "whisper" ∨ speech_to_text = some "aws_transcribe" ∨
        speech_to_text = some "google_speech" then []
    else ["Invalid speech_to_text method: " ++ pyShowOpt speech_to_text]
  i1 ++ i2

/-- Embedding of ArtifactRouter.validate_routing_config.  The
`if not routing_config.artifact_type` presence check can never fire: the
ArtifactType str-enum values "mcq"/"text"/"audio" are nonempty strings and
hence always truthy. -/
def validate_routing_config (rc : RoutingConfig) : List String :=
  let presence_issues :=
    (if rc.processor_config.isEmpty then ["Missing processor_config in routing config"] else []) ++
    (if rc.ace_weight_mapping.isEmpty then ["Missing ace_weight_mapping in routing config"] else [])
  let weight_issues :=
    if rc.ace_weight_mapping.isEmpty then []
    else
      let total_weight := (rc.ace_weight_mapping.map (fun p => p.2)).sum
      if |total_weight - 1| > (0.01 : ℚ) then
        ["ACE weights must sum to 1.0, got " ++ toString total_weight]
      else []
  let processor_issues :=
    match rc.artifact_type with
    | .mcq => validate_mcq_processor_config rc.processor_config
    | .text => validate_text_processor_config rc.processor_config
    | .audio => validate_audio_processor_config rc.processor_config
  presence_issues ++ weight_issues ++ processor_issues

/-- Embedding of config.models.artifact_models.TextArtifact. -/
structure TextArtifact where
  text_content : String
  word_count : Nat
  readability_score : Option ℚ
  language : Option String

/-- Embedding of config.models.artifact_models.AudioArtifact; bytes become
a list of byte values. -/
structure AudioArtifact where
  audio_data : List Nat
  duration_seconds : ℚ
  sample_rate : Nat
  format : String
  transcript : Option String
  confidence_score : Option ℚ

/-- Embedding of config.models.core_models.SubmissionMetadata (timestamp
and additional_metadata are never read by the router's payload builder). -/
structure SubmissionMetadata where
  submission_id : String
  batch_id : String
  student_id : String
  course_id : String
  assignment_id : String
  institution_id : Option String

/-- The Union content field of config.models.core_models.Artifact. -/
inductive ArtifactContent where
  | mcqContent (a : MCQArtifact)
  | textContent (t : TextArtifact)
  | audioContent (au : AudioArtifact)
  | dictContent (d : List (String × PVal))
  | strContent (s : String)

/-- Embedding of config.models.core_models.Artifact. -/
structure Artifact where
  artifact_id : String
  artifact_type : ArtifactType
  content : ArtifactContent
  metadata : List (String × PVal)
  weight : ℚ

/-- Embedding of config.models.core_models.Submission (status and
timestamps omitted: the router reads only metadata and artifacts). -/
structure Submission where
  metadata : SubmissionMetadata
  artifacts : List Artifact

/-- An optional string as a JSON value (None becomes null). -/
def optS : Option String → PVal
  | none => PVal.null
  | some s => PVal.s s

/-- An optional rational as a JSON value (None becomes null). -/
def optQ : Option ℚ → PVal
  | none => PVal.null
  | some v => PVal.q v

/-- model_dump of an MCQAnswer. -/
def answerToPVal (a : MCQAnswer) : PVal :=
  PVal.obj
    [ ("question_id", PVal.s a.question_id)
    , ("selected_option", PVal.s a.selected_option)
    , ("correct_option", optS a.correct_option)
    , ("is_correct", match a.is_correct with | some b => PVal.b b | none => PVal.null) ]

/-- Embedding of ArtifactRouter._serialize_content: pydantic models dump to
plain dicts, dicts and primitives pass through. -/
def serialize_content : ArtifactContent → PVal
  | .mcqContent a =>
      PVal.obj
        [ ("answers", PVal.arr (a.answers.map answerToPVal))
        , ("total_questions", PVal.q a.total_questions)
        , ("correct_answers", PVal.q a.correct_answers)
        , ("score_percentage", PVal.q a.score_percentage) ]
  | .textContent t =>
      PVal.obj
        [ ("text_content", PVal.s t.text_content)
        , ("word_count", PVal.q t.word_count)
        , ("readability_score", optQ t.readability_score)
        , ("language", optS t.language) ]
  | .audioContent au =>
      PVal.obj
        [ ("audio_data", PVal.bytes au.audio_data)
        , ("duration_seconds", PVal.q au.duration_seconds)
        , ("sample_rate", PVal.q au.sample_rate)
        , ("format", PVal.s au.format)
        , ("transcript", optS au.transcript)
        , ("confidence_score", optQ au.confidence_score) ]
  | .dictContent d => PVal.obj d
  | .strContent s => PVal.s s

/-- Embedding of ArtifactRouter._prepare_mcq_data: only content with an
`answers` attribute (the typed MCQArtifact) fills mcq_data. -/
def prepare_mcq_data (artifact : Artifact) : List (String × PVal) :=
  match artifact.content with
  | .mcqContent a =>
      [ ("mcq_data", PVal.obj
          [ ("answers", PVal.arr (a.answers.map answerToPVal))
          , ("total_questions", PVal.q a.total_questions) ]) ]
  | _ => [("mcq_data", PVal.obj [])]

/-- Embedding of ArtifactRouter._prepare_text_data. -/
def prepare_text_data (artifact : Artifact) : List (String × PVal) :=
  match artifact.content with
  | .textContent t =>
      [ ("text_data", PVal.obj
          [ ("text_content", PVal.s t.text_content)
          , ("word_count", PVal.q t.word_count)
          , ("language", optS t.language) ]) ]
  | .dictContent d =>
      match d.lookup "text_content" with
      | some tc =>
          [ ("text_data", PVal.obj
              [ ("text_content", tc)
              , ("word_count", (d.lookup "word_count").getD (PVal.q 0))
              , ("language", (d.lookup "language").getD PVal.null) ]) ]
      | none => [("text_data", PVal.obj [])]
  | _ => [("text_data", PVal.obj [])]

/-- The first truthy value of an optional dict entry, as in the Python
`x or y or None` chain. -/
def truthyOpt (v : Option PVal) : Option PVal :=
  match v with
  | some w => if pyTruthy w then some w else none
  | none => none

/-- Embedding of ArtifactRouter._prepare_audio_data.  The audio location is
stored only under the nested audio_data.audio_path key.  For typed
AudioArtifact content the audio_data attribute holds bytes, never a str, so
the isinstance(val, str) guard leaves audio_path as None there. -/
def prepare_audio_data (artifact : Artifact) : List (String × PVal) :=
  let content := artifact.content
  let audio_path : Option PVal :=
    match content with
    | .audioContent _ => none
    | .dictContent d =>
        (truthyOpt (d.lookup "audio_path")).orElse
          (fun _ => truthyOpt (d.lookup "audio_url"))
    | _ => none
  let dur : PVal := match content with | .audioContent au => PVal.q au.duration_seconds | _ => PVal.null
  let sr : PVal := match content with | .audioContent au => PVal.q au.sample_rate | _ => PVal.null
  let fmt : PVal := match content with | .audioContent au => PVal.s au.format | _ => PVal.null
  [ ("audio_data", PVal.obj
      [ ("audio_path", audio_path.getD PVal.null)
      , ("duration_seconds", dur)
      , ("sample_rate", sr)
      , ("format", fmt) ]) ]

/-- Python dict.update: existing keys keep their position with the new
value, new keys are appended in order. -/
def dictUpdate (base extra : List (String × PVal)) : List (String × PVal) :=
  (base.map (fun p =>
    match extra.lookup p.1 with
    | some v => (p.1, v)
    | none => p)) ++
  extra.filter (fun kv => (base.lookup kv.1).isNone)

/-- Embedding of ArtifactRouter._prepare_artifact_payload: the base payload
dict (identity, serialized content, metadata, weight, submission metadata)
updated with the type-specific convenience block. -/
def prepare_artifact_payload (artifact : Artifact) (submission : Submission) :
    List (String × PVal) :=
  let base : List (String × PVal) :=
    [ ("artifact_id", PVal.s artifact.artifact_id)
    , ("artifact_type", PVal.s artifact.artifact_type.value)
    , ("content", serialize_content artifact.content)
    , ("metadata", PVal.obj artifact.metadata)
    , ("weight", PVal.q artifact.weight)
    , ("submission_metadata", PVal.obj
        [ ("submission_id", PVal.s submission.metadata.submission_id)
        , ("batch_id", PVal.s submission.metadata.batch_id)
        , ("student_id", PVal.s submission.metadata.student_id)
        , ("course_id", PVal.s submission.metadata.course_id)
        , ("assignment_id", PVal.s submission.metadata.assignment_id)
        , ("institution_id", optS submission.metadata.institution_id) ]) ]
  let extra :=
    match artifact.artifact_type with
    | .mcq => prepare_mcq_data artifact
    | .text => prepare_text_data artifact
    | .audio => prepare_audio_data artifact
  dictUpdate base extra

/-- Embedding of step 1 of AudioProcessor._process_core: the strategy reads
the top-level audio_url key of the payload and raises
ValueError("Missing 'audio_url' in payload.") when it is absent or falsy.
Steps 2-5 (HTTP download, Whisper transcription, LLM evaluation) are
external I/O and are abstracted as the `rest` parameter; none of them
mutates the task, so the task is returned unchanged. -/
def audio_process_core
    (rest : PVal → ProcessingTask (List (String × PVal)) → Except String ArtifactResult)
    (task : ProcessingTask (List (String × PVal))) :
    Except String (ArtifactResult × ProcessingTask (List (String × PVal))) :=
  match task.artifact_payload.lookup "audio_url" with
  | some v =>
      if pyTruthy v then (rest v task).map (fun r => (r, task))
      else Except.error "Missing 'audio_url' in payload."
  | none => Except.error "Missing 'audio_url' in payload."

/-- The structured response of the external natural-language evaluator, as
consumed by AudioProcessor._calculate_ace_scores (every field optional with
a zero/empty default). -/
structure AIEvalResult where
  analysis_score : Option ℚ
  communication_score : Option ℚ
  evaluation_score : Option ℚ
  analysis_feedback : Option String
  communication_feedback : Option String
  evaluation_feedback : Option String
  overall_feedback : Option String

/-- Embedding of AudioProcessor._calculate_ace_scores (the text processor's
_calculate_ace_scores is the same mapping plus per-dimension detail dicts);
every produced score again passes through the clamping _create_ace_score. -/
def audio_calculate_ace_scores (r : AIEvalResult)
    (w : ACEDimension → ℚ) : List ACEScore :=
  [ create_ace_score .analysis (r.analysis_score.getD 0) (w .analysis)
      (r.analysis_feedback.getD "") []
  , create_ace_score .communication (r.communication_score.getD 0) (w .communication)
      (r.communication_feedback.getD "") []
  , create_ace_score .evaluation (r.evaluation_score.getD 0) (w .evaluation)
      (r.evaluation_feedback.getD "") [] ]

/-- The clamp used by create_ace_score stays inside the unit score range. -/
lemma clamp_mem_range (x : ℚ) :
    0 ≤ max 0 (min 100 x) ∧ max 0 (min 100 x) ≤ 100 :=
  ⟨le_max_left 0 _, max_le (by norm_num) (min_le_left 100 x)⟩

/-- The clamp is the identity on scores already inside the range. -/
lemma clamp_eq_self {x : ℚ} (h0 : 0 ≤ x) (h1 : x ≤ 100) :
    max 0 (min 100 x) = x := by
  rw [min_eq_right h1, max_eq_right h0]

/-- C1: the base processor's overall-score computation returns 0.0 on an
empty score list, the unweighted arithmetic mean when the weight total is
zero or negative, and the weighted average otherwise; in each branch the
denominator used is nonzero, so no division-by-zero error is possible. -/
theorem calculate_overall_score_spec (scores : List ACEScore) :
    (scores = [] → calculate_overall_score scores = 0) ∧
    (scores ≠ [] → (scores.map (fun s => s.weight)).sum ≤ 0 →
      (scores.length : ℚ) ≠ 0 ∧
      calculate_overall_score scores =
        (scores.map (fun s => s.score)).sum / (scores.length : ℚ)) ∧
    (scores ≠ [] → 0 < (scores.map (fun s => s.weight)).sum →
      (scores.map (fun s => s.weight)).sum ≠ 0 ∧
      calculate_overall_score scores =
        (scores.map (fun s => s.score * s.weight)).sum /
          (scores.map (fun s => s.weight)).sum) := by
  refine ⟨fun h => ?_, fun h hw => ⟨?_, ?_⟩, fun h hw => ⟨ne_of_gt hw, ?_⟩⟩
  · simp [calculate_overall_score, h]
  · exact_mod_cast fun hl => h (List.length_eq_zero.mp (by exact_mod_cast hl))
  · rw [calculate_overall_score, if_neg (by simp [h]), if_pos hw]
  · rw [calculate_overall_score, if_neg (by simp [h]), if_neg (not_le.mpr hw)]

/-- C1 witness: the spec's own test vectors — empty list gives 0.0, all
weights 0 gives the unweighted mean (80 and 60 average to 70), and weights
0.4/0.6 on 80/60 give 68.0. -/
theorem calculate_overall_score_spec_witness :
    calculate_overall_score [] = 0 ∧
    calculate_overall_score
      [ { dimension := .analysis, score := 80, weight := 0, feedback := "", details := [] }
      , { dimension := .communication, score := 60, weight := 0, feedback := "", details := [] } ] = 70 ∧
    calculate_overall_score
      [ { dimension := .analysis, score := 80, weight := 0.4, feedback := "", details := [] }
      , { dimension := .communication, score := 60, weight := 0.6, feedback := "", details := [] } ] = 68 := by
  refine ⟨(calculate_overall_score_spec []).1 rfl, ?_, ?_⟩
  · have h := ((calculate_overall_score_spec
      [ { dimension := .analysis, score := 80, weight := 0, feedback := "", details := [] }
      , { dimension := .communication, score := 60, weight := 0, feedback := "", details := [] } ]).2.1
      (by simp) (by norm_num)).2
    rw [h]; norm_num
  · have h := ((calculate_overall_score_spec
      [ { dimension := .analysis, score := 80, weight := 0.4, feedback := "", details := [] }
      , { dimension := .communication, score := 60, weight := 0.6, feedback := "", details := [] } ]).2.2
      (by simp) (by norm_num)).2
    rw [h]; norm_num

/-- C2: every ACEScore produced through the pipeline's single creation
point _create_ace_score has its score clamped into [0, 100] whatever the
upstream value; in particular -50 clamps to 0 and 500 clamps to 100, and
the MCQ and audio/text score builders inherit the bound. -/
theorem ace_score_creation_clamped (d : ACEDimension) (score weight : ℚ)
    (fb : String) (det : List (String × PVal)) (er : EvalResult)
    (r : AIEvalResult) (w : ACEDimension → ℚ) (s : ACEScore) :
    (0 ≤ (create_ace_score d score weight fb det).score ∧
      (create_ace_score d score weight fb det).score ≤ 100) ∧
    (create_ace_score d (-50) weight fb det).score = 0 ∧
    (create_ace_score d 500 weight fb det).score = 100 ∧
    (s ∈ calculate_ace_scores er w → 0 ≤ s.score ∧ s.score ≤ 100) ∧
    (s ∈ audio_calculate_ace_scores r w → 0 ≤ s.score ∧ s.score ≤ 100) := by
  refine ⟨clamp_mem_range score, ?_, ?_, fun hs => ?_, fun hs => ?_⟩
  · show max 0 (min 100 (-50 : ℚ)) = 0
    norm_num
  · show max 0 (min 100 (500 : ℚ)) = 100
    norm_num
  · simp only [calculate_ace_scores, List.mem_cons, List.not_mem_nil, or_false] at hs
    rcases hs with h | h | h <;> rw [h] <;> exact clamp_mem_range _
  · simp only [audio_calculate_ace_scores, List.mem_cons, List.not_mem_nil, or_false] at hs
    rcases hs with h | h | h <;> rw [h] <;> exact clamp_mem_range _

/-- A concrete exact-match evaluation result used by the C2 witness. -/
def c2_eval : EvalResult :=
  { total_questions := 1, correct_answers := 1, accuracy_percentage := 100,
    evaluation_method := "exact_match" }

/-- C2 witness: the clamp theorem applied, via its membership clause, to
the Evaluation score that the MCQ builder produces for a perfect
artifact. -/
theorem ace_score_creation_clamped_witness :
    0 ≤ (create_ace_score ACEDimension.evaluation c2_eval.accuracy_percentage 1
        "Evaluation accuracy"
        [("accuracy_percentage", PVal.q c2_eval.accuracy_percentage)]).score ∧
      (create_ace_score ACEDimension.evaluation c2_eval.accuracy_percentage 1
        "Evaluation accuracy"
        [("accuracy_percentage", PVal.q c2_eval.accuracy_percentage)]).score ≤ 100 :=
  (ace_score_creation_clamped ACEDimension.evaluation 0 0 "" [] c2_eval
    { analysis_score := none, communication_score := none, evaluation_score := none,
      analysis_feedback := none, communication_feedback := none,
      evaluation_feedback := none, overall_feedback := none }
    (fun _ => 1) _).2.2.2.1
    (List.mem_cons_of_mem _ (List.mem_cons_of_mem _ (List.mem_cons_self _ _)))

/-- C3: when the scoring strategy fails, the executor returns (rather than
propagates) a synthetic zero-score ArtifactResult carrying the exception
text in feedback and errors, inside the same identity-tagged
CompletedArtifact envelope as a success. -/
theorem execute_failure_envelope {π : Type}
    (strat : ProcessingTask π → Except String (ArtifactResult × ProcessingTask π))
    (task : ProcessingTask π) (elapsed_ms : Nat) (e : String)
    (h : strat task = Except.error e) :
    (execute strat elapsed_ms task).1 =
      { submission_id := task.submission_id
        student_id := task.student_id
        batch_id := task.batch_id
        artifact_result :=
          { artifact_id := task.artifact_id
            artifact_type := task.artifact_type
            processing_time_ms := elapsed_ms
            ace_scores := []
            overall_score := 0
            feedback := "Processor error: " ++ e
            metadata := [("error", PVal.s e)]
            errors := [e] } } := by
  simp only [execute, h, failure_result]

/-- A concrete task used to witness the failure envelope. -/
def c3_task : ProcessingTask Unit :=
  { task_id := "t1", submission_id := "s1", artifact_id := "a1",
    artifact_type := .mcq, artifact_payload := (),
    student_id := some "stu1", batch_id := some "b1",
    routing_config := { ace_weight_mapping := [], processor_config := [] },
    retry_count := 0, max_retries := 3 }

/-- C3 witness: a strategy that always raises "boom" produces the synthetic
failure envelope with the task's identity fields. -/
theorem execute_failure_envelope_witness :
    (execute (fun _ : ProcessingTask Unit => Except.error "boom") 5 c3_task).1 =
      { submission_id := "s1"
        student_id := some "stu1"
        batch_id := some "b1"
        artifact_result :=
          { artifact_id := "a1"
            artifact_type := .mcq
            processing_time_ms := 5
            ace_scores := []
            overall_score := 0
            feedback := "Processor error: " ++ "boom"
            metadata := [("error", PVal.s "boom")]
            errors := ["boom"] } } :=
  execute_failure_envelope (fun _ => Except.error "boom") c3_task 5 "boom" rfl

/-- Every evaluation-method branch of _evaluate_answers resolves to the
exact-match evaluation (the alternates are unimplemented fallbacks). -/
lemma evaluate_answers_eq (art : MCQArtifact) (pc : List (String × String)) :
    evaluate_answers art pc = evaluate_exact_match art := by
  simp only [evaluate_answers]
  split
  · rfl
  · split <;> rfl

/-- The exact-match accuracy percentage always lies in [0, 100]: the
correct count is a filter of the answers list, hence at most its length. -/
lemma exact_match_accuracy_bounds (art : MCQArtifact) :
    0 ≤ (evaluate_exact_match art).1.accuracy_percentage ∧
    (evaluate_exact_match art).1.accuracy_percentage ≤ 100 := by
  unfold evaluate_exact_match
  dsimp only
  rcases Nat.eq_zero_or_pos (art.answers.map updateAnswer).length with h | h
  · rw [if_neg (by omega)]
    norm_num
  · rw [if_pos h]
    have hct : (((art.answers.map updateAnswer).filter
        (fun a => a.is_correct == some true)).length : ℚ) ≤
        ((art.answers.map updateAnswer).length : ℚ) := by
      exact_mod_cast List.length_filter_le _ _
    have hpos : (0 : ℚ) < ((art.answers.map updateAnswer).length : ℚ) := by
      exact_mod_cast h
    constructor
    · positivity
    · have hdiv : (((art.answers.map updateAnswer).filter
          (fun a => a.is_correct == some true)).length : ℚ) /
          ((art.answers.map updateAnswer).length : ℚ) ≤ 1 :=
        (div_le_one hpos).mpr hct
      nlinarith

/-- C4: with accuracy = correct/total*100 (0 when total is 0), the MCQ
strategy's three dimension scores are exactly Analysis = accuracy*0.9,
Communication = min(accuracy, 80.0) and Evaluation = accuracy — the clamp
in the score constructor is the identity because accuracy stays in
[0, 100]. -/
theorem mcq_dimension_scores_exact (art : MCQArtifact)
    (pc : List (String × String)) (w : ACEDimension → ℚ) :
    ((evaluate_answers art pc).1.accuracy_percentage =
      if (evaluate_answers art pc).1.total_questions = 0 then 0
      else ((evaluate_answers art pc).1.correct_answers : ℚ) /
        ((evaluate_answers art pc).1.total_questions : ℚ) * 100) ∧
    ((calculate_ace_scores (evaluate_answers art pc).1 w).map
        (fun s => (s.dimension, s.score))) =
      [ (ACEDimension.analysis, (evaluate_answers art pc).1.accuracy_percentage * 0.9)
      , (ACEDimension.communication, min (evaluate_answers art pc).1.accuracy_percentage 80)
      , (ACEDimension.evaluation, (evaluate_answers art pc).1.accuracy_percentage) ] := by
  rw [evaluate_answers_eq]
  obtain ⟨h0, h1⟩ := exact_match_accuracy_bounds art
  constructor
  · unfold evaluate_exact_match
    dsimp only
    rcases Nat.eq_zero_or_pos (art.answers.map updateAnswer).length with h | h
    · rw [if_neg (by omega), if_pos h]
    · rw [if_pos h, if_neg (by omega)]
  · simp only [calculate_ace_scores, create_ace_score, List.map]
    refine congrArg₂ _ (congrArg _ ?_) (congrArg₂ _ (congrArg _ ?_)
      (congrArg₂ _ (congrArg _ ?_) rfl))
    · exact clamp_eq_self (by nlinarith) (by nlinarith)
    · exact clamp_eq_self (le_min h0 (by norm_num))
        ((min_le_right _ _).trans (by norm_num))
    · exact clamp_eq_self h0 h1

/-- The MCQ artifact of the C5 counterexample: one answer with an empty
selected option, no correct option and is_correct absent. -/
def c5_art : MCQArtifact :=
  { answers := [ { question_id := "q1", selected_option := "",
                   correct_option := none, is_correct := none } ],
    total_questions := 1, correct_answers := 0, score_percentage := 0 }

/-- C5 counterexample: an answer whose selected_option is empty and whose
correct_option is None IS counted as correct by exact-match evaluation
(both normalize to the empty string), contradicting the claim that such an
answer must never be counted correct. -/
theorem mcq_blank_answer_counted_correct_cex :
    (evaluate_exact_match c5_art).1.correct_answers = 1 := by
  decide

/-- C5 amended: when is_correct is absent, exact-match evaluation computes
it as the case-insensitive, whitespace-trimmed equality of selected_option
and correct_option in which a missing (None) option normalizes to the empty
string — so an answer with None/empty selected and None/empty correct IS
counted correct. -/
theorem mcq_is_correct_computed_when_absent (art : MCQArtifact) (i : Nat)
    (h : i < art.answers.length)
    (hnone : (art.answers.get ⟨i, h⟩).is_correct = none) :
    ∃ h2 : i < (evaluate_exact_match art).2.answers.length,
      ((evaluate_exact_match art).2.answers.get ⟨i, h2⟩).is_correct =
        some (pyNorm (some (art.answers.get ⟨i, h⟩).selected_option) ==
          pyNorm (art.answers.get ⟨i, h⟩).correct_option) := by
  have hlen : (evaluate_exact_match art).2.answers.length = art.answers.length := by
    simp [evaluate_exact_match]
  refine ⟨by omega, ?_⟩
  have hget : (evaluate_exact_match art).2.answers.get ⟨i, by omega⟩ =
      updateAnswer (art.answers.get ⟨i, h⟩) := by
    exact List.get_map updateAnswer
  rw [hget, updateAnswer, hnone]

/-- C5 amended witness: on the concrete blank answer the computed
is_correct is true. -/
theorem mcq_is_correct_computed_when_absent_witness :
    ∃ h2 : 0 < (evaluate_exact_match c5_art).2.answers.length,
      ((evaluate_exact_match c5_art).2.answers.get ⟨0, h2⟩).is_correct = some true := by
  obtain ⟨h2, heq⟩ := mcq_is_correct_computed_when_absent c5_art 0 (by decide) (by decide)
  exact ⟨h2, by rw [heq]; rfl⟩

/-- C6: a submission result with no artifact results aggregates to a
well-formed all-zero StudentReport — scores 0.0, passed and excellence
false, empty artifact_types, identity fields carried over — instead of
raising. -/
theorem aggregate_empty_submission_report (cfg : ACEConfig)
    (sub : SubmissionResult) (h : sub.artifact_results = []) :
    aggregate_single_submission cfg sub =
      { student_id := sub.student_id
        submission_id := sub.submission_id
        batch_id := some sub.batch_id
        artifact_types := []
        analysis_score := 0
        communication_score := 0
        evaluation_score := 0
        overall_score := 0
        passed := false
        excellence_achieved := false
        weights_applied := artifact_weights_dict } := by
  rw [aggregate_single_submission, if_pos (by simp [h])]
  rfl

/-- C6 witness: a concrete empty submission yields the all-zero report. -/
theorem aggregate_empty_submission_report_witness :
    aggregate_single_submission default_ace_config
      { submission_id := "sub1", student_id := "stu1", batch_id := "b1",
        artifact_results := [] } =
      { student_id := "stu1"
        submission_id := "sub1"
        batch_id := some "b1"
        artifact_types := []
        analysis_score := 0
        communication_score := 0
        evaluation_score := 0
        overall_score := 0
        passed := false
        excellence_achieved := false
        weights_applied := artifact_weights_dict } :=
  aggregate_empty_submission_report default_ace_config
    { submission_id := "sub1", student_id := "stu1", batch_id := "b1",
      artifact_results := [] } rfl

/-- The per-dimension weighted accumulation is invariant under permutation
of the artifact results. -/
lemma dimension_weighted_sum_perm {l1 l2 : List ArtifactResult}
    (h : l1.Perm l2) (d : ACEDimension) :
    dimension_weighted_sum l1 d = dimension_weighted_sum l2 d :=
  (h.map _).sum_eq

/-- The total-weight accumulation is invariant under permutation of the
artifact results. -/
lemma total_artifact_weight_perm {l1 l2 : List ArtifactResult}
    (h : l1.Perm l2) :
    total_artifact_weight l1 = total_artifact_weight l2 :=
  (h.map _).sum_eq

/-- C7: single-submission aggregation is order-independent — permuting the
artifact results leaves every score and flag of the StudentReport
unchanged. -/
theorem aggregate_order_independent (cfg : ACEConfig) (sub : SubmissionResult)
    (l1 l2 : List ArtifactResult) (hperm : l1.Perm l2) :
    (aggregate_single_submission cfg { sub with artifact_results := l1 }).analysis_score =
      (aggregate_single_submission cfg { sub with artifact_results := l2 }).analysis_score ∧
    (aggregate_single_submission cfg { sub with artifact_results := l1 }).communication_score =
      (aggregate_single_submission cfg { sub with artifact_results := l2 }).communication_score ∧
    (aggregate_single_submission cfg { sub with artifact_results := l1 }).evaluation_score =
      (aggregate_single_submission cfg { sub with artifact_results := l2 }).evaluation_score ∧
    (aggregate_single_submission cfg { sub with artifact_results := l1 }).overall_score =
      (aggregate_single_submission cfg { sub with artifact_results := l2 }).overall_score ∧
    (aggregate_single_submission cfg { sub with artifact_results := l1 }).passed =
      (aggregate_single_submission cfg { sub with artifact_results := l2 }).passed ∧
    (aggregate_single_submission cfg { sub with artifact_results := l1 }).excellence_achieved =
      (aggregate_single_submission cfg { sub with artifact_results := l2 }).excellence_achieved := by
  by_cases hnil : l1 = []
  · subst hnil
    have hnil2 : l2 = [] := hperm.symm.eq_nil
    subst hnil2
    exact ⟨rfl, rfl, rfl, rfl, rfl, rfl⟩
  · have hnil2 : l2 ≠ [] := fun h2 => hnil ((h2 ▸ hperm).eq_nil)
    have hd1 := dimension_weighted_sum_perm hperm ACEDimension.analysis
    have hd2 := dimension_weighted_sum_perm hperm ACEDimension.communication
    have hd3 := dimension_weighted_sum_perm hperm ACEDimension.evaluation
    have ht := total_artifact_weight_perm hperm
    simp [aggregate_single_submission, hnil, hnil2, hd1, hd2, hd3, ht]

/-- A concrete MCQ artifact result for the order-independence witness. -/
def c7_result_a : ArtifactResult :=
  { artifact_id := "a1", artifact_type := .mcq, processing_time_ms := 0,
    ace_scores := [ { dimension := .analysis, score := 90, weight := 0.4,
                      feedback := "", details := [] } ],
    overall_score := 90, feedback := "", metadata := [], errors := [] }

/-- A concrete text artifact result for the order-independence witness. -/
def c7_result_b : ArtifactResult :=
  { artifact_id := "a2", artifact_type := .text, processing_time_ms := 0,
    ace_scores := [ { dimension := .analysis, score := 70, weight := 0.4,
                      feedback := "", details := [] } ],
    overall_score := 70, feedback := "", metadata := [], errors := [] }

/-- A concrete submission shell for the order-independence witness. -/
def c7_sub : SubmissionResult :=
  { submission_id := "sub1", student_id := "stu1", batch_id := "b1",
    artifact_results := [] }

/-- C7 witness: swapping two concrete artifact results leaves every
aggregated score and flag unchanged. -/
theorem aggregate_order_independent_witness :
    (aggregate_single_submission default_ace_config
        { c7_sub with artifact_results := [c7_result_a, c7_result_b] }).analysis_score =
      (aggregate_single_submission default_ace_config
        { c7_sub with artifact_results := [c7_result_b, c7_result_a] }).analysis_score ∧
    (aggregate_single_submission default_ace_config
        { c7_sub with artifact_results := [c7_result_a, c7_result_b] }).communication_score =
      (aggregate_single_submission default_ace_config
        { c7_sub with artifact_results := [c7_result_b, c7_result_a] }).communication_score ∧
    (aggregate_single_submission default_ace_config
        { c7_sub with artifact_results := [c7_result_a, c7_result_b] }).evaluation_score =
      (aggregate_single_submission default_ace_config
        { c7_sub with artifact_results := [c7_result_b, c7_result_a] }).evaluation_score ∧
    (aggregate_single_submission default_ace_config
        { c7_sub with artifact_results := [c7_result_a, c7_result_b] }).overall_score =
      (aggregate_single_submission default_ace_config
        { c7_sub with artifact_results := [c7_result_b, c7_result_a] }).overall_score ∧
    (aggregate_single_submission default_ace_config
        { c7_sub with artifact_results := [c7_result_a, c7_result_b] }).passed =
      (aggregate_single_submission default_ace_config
        { c7_sub with artifact_results := [c7_result_b, c7_result_a] }).passed ∧
    (aggregate_single_submission default_ace_config
        { c7_sub with artifact_results := [c7_result_a, c7_result_b] }).excellence_achieved =
      (aggregate_single_submission default_ace_config
        { c7_sub with artifact_results := [c7_result_b, c7_result_a] }).excellence_achieved :=
  aggregate_order_independent default_ace_config c7_sub
    [c7_result_a, c7_result_b] [c7_result_b, c7_result_a]
    (List.Perm.swap c7_result_b c7_result_a [])

/-- A list of answers all of whose is_correct fields are already set maps
to itself under the evaluation loop's update step. -/
lemma map_updateAnswer_id {l : List MCQAnswer}
    (h : ∀ a ∈ l, a.is_correct ≠ none) :
    l.map updateAnswer = l := by
  induction l with
  | nil => rfl
  | cons a t ih =>
      simp only [List.map_cons]
      have ha := h a (List.mem_cons_self a t)
      have ht := ih (fun x hx => h x (List.mem_cons_of_mem a hx))
      rw [ht]
      rcases hb : a.is_correct with _ | b
      · exact absurd hb ha
      · simp [updateAnswer, hb]

/-- The MCQ artifact mutated by the C8 counterexample: one answer with
is_correct absent, passed through as a typed payload. -/
def c8_art : MCQArtifact :=
  { answers := [ { question_id := "q1", selected_option := "B",
                   correct_option := some "b", is_correct := none } ],
    total_questions := 1, correct_answers := 0, score_percentage := 0 }

/-- The processing task of the C8 counterexample: its payload is the typed
MCQArtifact object itself. -/
def c8_task : ProcessingTask MCQPayload :=
  { task_id := "t1", submission_id := "s1", artifact_id := "a1",
    artifact_type := .mcq, artifact_payload := MCQPayload.modelArt c8_art,
    student_id := none, batch_id := none,
    routing_config := { ace_weight_mapping := [], processor_config := [] },
    retry_count := 0, max_retries := 3 }

/-- C8 counterexample: scoring this MCQ task changes the task's own
payload — the answer's is_correct field is filled in on the upstream
object — so scoring does NOT leave the input artifact payload unchanged. -/
theorem mcq_scoring_mutates_payload_cex :
    (mcq_process_core c8_task).2.artifact_payload ≠ c8_task.artifact_payload := by
  decide

/-- C8 amended: execution leaves every task field except the payload
unchanged, and the payload itself is unchanged unless it is a typed
MCQArtifact with some answer's is_correct absent — in that case exactly
those is_correct fields are set in place to the computed correctness and
nothing else changes (answers with is_correct present, and all other answer
fields, are untouched; for already-evaluated typed payloads the task is
returned exactly as given). -/
theorem mcq_scoring_frame (task : ProcessingTask MCQPayload) :
    ((mcq_process_core task).2.task_id = task.task_id ∧
     (mcq_process_core task).2.submission_id = task.submission_id ∧
     (mcq_process_core task).2.artifact_id = task.artifact_id ∧
     (mcq_process_core task).2.artifact_type = task.artifact_type ∧
     (mcq_process_core task).2.student_id = task.student_id ∧
     (mcq_process_core task).2.batch_id = task.batch_id ∧
     (mcq_process_core task).2.routing_config = task.routing_config ∧
     (mcq_process_core task).2.retry_count = task.retry_count ∧
     (mcq_process_core task).2.max_retries = task.max_retries) ∧
    (∀ art, task.artifact_payload = MCQPayload.modelArt art →
      (mcq_process_core task).2.artifact_payload =
        MCQPayload.modelArt { art with answers := art.answers.map updateAnswer }) ∧
    ((∀ art, task.artifact_payload ≠ MCQPayload.modelArt art) →
      (mcq_process_core task).2 = task) ∧
    (∀ a : MCQAnswer,
      (updateAnswer a).question_id = a.question_id ∧
      (updateAnswer a).selected_option = a.selected_option ∧
      (updateAnswer a).correct_option = a.correct_option ∧
      (a.is_correct ≠ none → updateAnswer a = a)) ∧
    (∀ art, task.artifact_payload = MCQPayload.modelArt art →
      (∀ a ∈ art.answers, a.is_correct ≠ none) →
      (mcq_process_core task).2 = task) := by
  refine ⟨?_, ?_, ?_, ?_, ?_⟩
  · rcases htask : task.artifact_payload with art | ans | raw <;>
      simp [mcq_process_core, htask]
  · intro art h
    simp [mcq_process_core, h, extract_mcq_artifact, evaluate_answers_eq,
      evaluate_exact_match]
  · intro h
    rcases htask : task.artifact_payload with art | ans | raw
    · exact absurd htask (h art)
    · simp [mcq_process_core, htask]
    · simp [mcq_process_core, htask]
  · intro a
    rcases hb : a.is_correct with _ | b <;> simp [updateAnswer, hb]
  · intro art h hall
    have hmap := map_updateAnswer_id hall
    simp only [mcq_process_core, h, extract_mcq_artifact, evaluate_answers_eq,
      evaluate_exact_match]
    rw [hmap, ← h]

/-- C8 amended witness: on the counterexample task the payload comes back
as the typed artifact with the absent is_correct computed in place. -/
theorem mcq_scoring_frame_witness :
    (mcq_process_core c8_task).2.artifact_payload =
      MCQPayload.modelArt
        { answers := [ { question_id := "q1", selected_option := "B",
                         correct_option := some "b", is_correct := some true } ],
          total_questions := 1, correct_answers := 0, score_percentage := 0 } := by
  have h := (mcq_scoring_frame c8_task).2.1 c8_art rfl
  rw [h]
  decide

/-- C9: the routing-config validation helper returns a list of issue
strings (it is a total function — it never raises); the list contains an
issue whenever the weight map is missing, whenever its values miss 1.0 by
more than 0.01, and whenever the processor_type or evaluation_method is
outside the artifact type's known enumerated set. -/
theorem validate_routing_config_reports_issues (rc : RoutingConfig) :
    (rc.ace_weight_mapping = [] →
      "Missing ace_weight_mapping in routing config" ∈ validate_routing_config rc) ∧
    (rc.ace_weight_mapping ≠ [] →
      |(rc.ace_weight_mapping.map (fun p => p.2)).sum - 1| > (0.01 : ℚ) →
      ("ACE weights must sum to 1.0, got " ++
        toString ((rc.ace_weight_mapping.map (fun p => p.2)).sum)) ∈
        validate_routing_config rc) ∧
    (rc.artifact_type = .mcq →
      (¬ (rc.processor_config.lookup "processor_type" = some "deterministic" ∨
          rc.processor_config.lookup "processor_type" = some "ai") →
        ("Invalid MCQ processor_type: " ++
          pyShowOpt (rc.processor_config.lookup "processor_type")) ∈
          validate_routing_config rc) ∧
      (¬ (rc.processor_config.lookup "evaluation_method" = some "exact_match" ∨
          rc.processor_config.lookup "evaluation_method" = some "partial_credit" ∨
          rc.processor_config.lookup "evaluation_method" = some "ai_scoring") →
        ("Invalid MCQ evaluation_method: " ++
          pyShowOpt (rc.processor_config.lookup "evaluation_method")) ∈
          validate_routing_config rc)) ∧
    (rc.artifact_type = .text →
      ¬ (rc.processor_config.lookup "processor_type" = some "ai" ∨
          rc.processor_config.lookup "processor_type" = some "rule_based") →
      ("Invalid text processor_type: " ++
        pyShowOpt (rc.processor_config.lookup "processor_type")) ∈
        validate_routing_config rc) ∧
    (rc.artifact_type = .audio →
      (rc.processor_config.lookup "processor_type" ≠ some "ai" →
        ("Invalid audio processor_type: " ++
          pyShowOpt (rc.processor_config.lookup "processor_type")) ∈
          validate_routing_config rc) ∧
      (¬ (rc.processor_config.lookup "speech_to_text" = some "whisper" ∨
          rc.processor_config.lookup "speech_to_text" = some "aws_transcribe" ∨
          rc.processor_config.lookup "speech_to_text" = some "google_speech") →
        ("Invalid speech_to_text method: " ++
          pyShowOpt (rc.processor_config.lookup "speech_to_text")) ∈
          validate_routing_config rc)) := by
  refine ⟨fun hmap => ?_, fun hmap hsum => ?_, fun hty => ⟨fun hpt => ?_, fun hem => ?_⟩,
    fun hty hpt => ?_, fun hty => ⟨fun hpt => ?_, fun hstt => ?_⟩⟩
  · simp [validate_routing_config, hmap]
  · simp [validate_routing_config, List.isEmpty_iff, hmap, hsum]
  · simp [validate_routing_config, validate_mcq_processor_config, hty, hpt]
  · simp [validate_routing_config, validate_mcq_processor_config, hty, hem]
  · simp [validate_routing_config, validate_text_processor_config, hty, hpt]
  · simp [validate_routing_config, validate_audio_processor_config, hty, hpt]
  · simp [validate_routing_config, validate_audio_processor_config, hty, hstt]

/-- A routing config violating the weight-sum tolerance and both MCQ
enumerations, used to witness the validation theorem. -/
def c9_config : RoutingConfig :=
  { artifact_type := .mcq
    processor_config := [("processor_type", "bogus")]
    ace_weight_mapping := [(ACEDimension.analysis, 0.5)] }

/-- C9 witness: on the concrete bad config the reported issue strings are
members of the returned list. -/
theorem validate_routing_config_reports_issues_witness :
    ("ACE weights must sum to 1.0, got " ++ toString ((0.5 : ℚ))) ∈
      validate_routing_config c9_config ∧
    ("Invalid MCQ processor_type: " ++ "bogus") ∈ validate_routing_config c9_config ∧
    ("Invalid MCQ evaluation_method: " ++ "None") ∈ validate_routing_config c9_config := by
  have h := validate_routing_config_reports_issues c9_config
  refine ⟨?_, ?_, ?_⟩
  · have hmem := h.2.1 (by decide) (by
      rw [gt_iff_lt, lt_abs]
      right
      simp [c9_config]
      norm_num)
    have hs : ((c9_config.ace_weight_mapping).map (fun p => p.2)).sum = (0.5 : ℚ) := by
      simp [c9_config]
    rw [hs] at hmem
    exact hmem
  · have hmem := (h.2.2.1 rfl).1 (by decide)
    have hv : pyShowOpt (c9_config.processor_config.lookup "processor_type") = "bogus" := rfl
    rw [hv] at hmem
    exact hmem
  · have hmem := (h.2.2.1 rfl).2 (by decide)
    have hv : pyShowOpt (c9_config.processor_config.lookup "evaluation_method") = "None" := rfl
    rw [hv] at hmem
    exact hmem

/-- C10: the router's audio payload preparation never writes a top-level
audio_url key (the audio location lives only under the nested
audio_data.audio_path), while the audio strategy reads exactly that
top-level key and raises before any transcription or evaluation when it is
missing — so every router-built audio task, whatever the external
transcription/evaluation collaborators (`rest`) would have returned, takes
the failure path and the executor converts it into the zero-score result
carrying the ValueError text. -/
theorem router_audio_task_fails_strategy
    (aid : String) (content : ArtifactContent) (md : List (String × PVal)) (wt : ℚ)
    (submission : Submission) (tid : String) (sid bid : Option String)
    (rcfg : RoutingDict) (rcount mretries elapsed : Nat)
    (rest : PVal → ProcessingTask (List (String × PVal)) → Except String ArtifactResult) :
    (prepare_artifact_payload
        { artifact_id := aid, artifact_type := .audio, content := content,
          metadata := md, weight := wt } submission).lookup "audio_url" = none ∧
    (∃ fields,
      (prepare_artifact_payload
          { artifact_id := aid, artifact_type := .audio, content := content,
            metadata := md, weight := wt } submission).lookup "audio_data" =
        some (PVal.obj fields) ∧
      (fields.lookup "audio_path").isSome = true) ∧
    ((execute (audio_process_core rest) elapsed
        { task_id := tid, submission_id := submission.metadata.submission_id,
          artifact_id := aid, artifact_type := .audio,
          artifact_payload :=
            prepare_artifact_payload
              { artifact_id := aid, artifact_type := .audio, content := content,
                metadata := md, weight := wt } submission,
          student_id := sid, batch_id := bid, routing_config := rcfg,
          retry_count := rcount, max_retries := mretries }).1.artifact_result =
      { artifact_id := aid, artifact_type := .audio, processing_time_ms := elapsed,
        ace_scores := [], overall_score := 0,
        feedback := "Processor error: " ++ "Missing 'audio_url' in payload.",
        metadata := [("error", PVal.s "Missing 'audio_url' in payload.")],
        errors := ["Missing 'audio_url' in payload."] }) := by
  exact ⟨rfl, ⟨_, rfl, rfl⟩, rfl⟩

end AceFw
